import Mathlib

/-!
# Verification of the frontend request-lifecycle and view-state machines

Shallow embedding of the React frontend of the document-upload-and-chat
application (`frontend/src/components/*.jsx` and `App.jsx`).  Each JavaScript
handler that the specification talks about is translated into an executable
Lean function over explicit state; asynchronous resolution orders are
represented by event lists processed by fold-style interpreters.

JavaScript-specific semantics that matter for the claims are modelled
explicitly:
* string `trim` / `toLowerCase` / `includes` over the character list of a
  string (ASCII case folding, which covers every string the code compares);
* truthiness of values used in `if` guards (`null`/`0`/`""` are falsy);
* `AbortController` cancellation: an aborted axios/fetch request rejects with
  an error named `CanceledError`, and React state setters invoked after a
  component unmounted are no-ops.
-/

namespace RagApp

/-! ## JavaScript string primitives -/

/-- Whitespace characters recognised by JavaScript `String.prototype.trim`
(the ASCII ones, which are the only ones the application ever produces). -/
def jsIsWhitespace (c : Char) : Bool :=
  c = ' ' || c = '\t' || c = '\n' || c = '\r' || c = '\x0b' || c = '\x0c'

/-- JavaScript `String.prototype.trim` on the character list. -/
def jsTrimL (l : List Char) : List Char :=
  ((l.dropWhile jsIsWhitespace).reverse.dropWhile jsIsWhitespace).reverse

/-- JavaScript `String.prototype.trim`. -/
def jsTrim (s : String) : String :=
  ⟨jsTrimL s.data⟩

/-- JavaScript `String.prototype.toLowerCase` (ASCII case folding). -/
def jsToLower (s : String) : String :=
  ⟨s.data.map Char.toLower⟩

/-- Does `l` start with `p`?  (Helper for substring containment.) -/
def startsWithL : List Char → List Char → Bool
  | _, [] => true
  | [], _ :: _ => false
  | a :: as, b :: bs => a = b && startsWithL as bs

/-- Does `l` contain `p` as a contiguous substring?
Model of JavaScript `String.prototype.includes`. -/
def containsL : List Char → List Char → Bool
  | [], p => p.isEmpty
  | a :: as, p => startsWithL (a :: as) p || containsL as p

/-- JavaScript `s.includes(pat)`. -/
def jsIncludes (s pat : String) : Bool :=
  containsL s.data pat.data

/-- Truthiness of a nullable JavaScript number (`null` and `0` are falsy). -/
def jsTruthyId : Option Int → Bool
  | none => false
  | some n => n ≠ 0

/-- Truthiness of a JavaScript string (only `""` is falsy). -/
def jsTruthyStr (s : String) : Bool :=
  s ≠ ""

/-! ## Data model (§3 of the spec) -/

/-- A chat message as the chat views keep it in component state
(`role`, `content`, `sources`; ids and timestamps do not influence any
claim and are omitted). -/
structure ChatMsg where
  role : String
  content : String
  sources : List (Int × String)
deriving DecidableEq, Repr

/-- A cached document row as `DocumentsView` receives it
(`id`, `filename`, nullable `file_type`, nullable `summary`;
the remaining display-only fields do not influence the claims). -/
structure DocR where
  id : Int
  filename : String
  file_type : Option String
  summary : Option String
deriving DecidableEq, Repr

/-! ## Chat session state machine: `ChatView.sendMessage`
(`ConversationSidebar.jsx`, second document, lines 271–333) -/

/-- Body of the `POST /api/chat` request. -/
structure ChatRequest where
  message : String
  conversation_id : Option Int
deriving DecidableEq, Repr

/-- The component state of `ChatView` that `sendMessage` reads and writes. -/
structure CVState where
  messages : List ChatMsg
  input : String
  isSending : Bool
  currentConvId : Option Int
deriving DecidableEq, Repr

/-- Possible resolutions of the `fetch('/api/chat', …)` call in `ChatView`:
a parsed body with `success: true`, a parsed body with `success` false
(else-branch), or a thrown connection error (catch-branch). -/
inductive CVOutcome
  | success (conversation_id : Option Int) (response : String)
      (sources : List (Int × String))
  | serverFailure
  | connectionError
deriving DecidableEq, Repr

/-- A callback fired towards the parent component. -/
inductive CVNotif
  | conversationCreated (id : Int)
deriving DecidableEq, Repr

/-- `ChatView.sendMessage` up to the `fetch` call: guard
(`if (!input.trim() || isSending) return`), clearing the input, setting
`isSending`, appending the optimistic user message and building the request
body.  Returns the new state and the request issued (`none` = no-op). -/
def cvSendStart (s : CVState) : CVState × Option ChatRequest :=
  if jsTrim s.input = "" ∨ s.isSending then (s, none)
  else
    let userMsg := jsTrim s.input
    ({ s with
        input := ""
        isSending := true
        messages := s.messages ++ [⟨"user", userMsg, []⟩] },
     some ⟨userMsg, s.currentConvId⟩)

/-- Error text appended by `ChatView` when the response body has
`success` false. -/
def cvServerErrorText : String := "An error occurred. Please try again."

/-- Error text appended by `ChatView` when the `fetch` throws. -/
def cvConnErrorText : String := "Failed to connect to server. Is the backend running?"

/-- `ChatView.sendMessage` from the resolution of the `fetch` onwards:
conversation-id adoption, assistant/error message appending, clearing
`isSending`.  `s` is the state left by `cvSendStart`. -/
def cvSendFinish (s : CVState) (o : CVOutcome) : CVState × List CVNotif :=
  match o with
  | .success convId resp srcs =>
    let adopt := ¬ jsTruthyId s.currentConvId ∧ jsTruthyId convId
    let s1 := if adopt then { s with currentConvId := convId } else s
    let notifs := if adopt then (convId.map (fun c => [CVNotif.conversationCreated c])).getD [] else []
    ({ s1 with
        messages := s1.messages ++ [⟨"assistant", resp, srcs⟩]
        isSending := false },
     notifs)
  | .serverFailure =>
    ({ s with
        messages := s.messages ++ [⟨"assistant", cvServerErrorText, []⟩]
        isSending := false }, [])
  | .connectionError =>
    ({ s with
        messages := s.messages ++ [⟨"assistant", cvConnErrorText, []⟩]
        isSending := false }, [])

/-! ## Chat session state machine: `ChatPage.handleSend`
(`DocumentsView.jsx`, second document, lines 424–504) -/

/-- The component state of `ChatPage` read and written by `handleSend`. -/
structure CPSendState where
  messages : List ChatMsg
  input : String
  loading : Bool
  streaming : Bool
  currentConv : Option Int
deriving DecidableEq, Repr

/-- Possible resolutions of the `axios.post('/api/chat', …)` call in
`ChatPage`:
* `success`: 2xx with truthy `data.success`;
* `successFalse`: 2xx with falsy `data.success` — the code throws
  `Error('Failed to get response')` into its own catch;
* `abortError`: the request was cancelled (error name `CanceledError` /
  `AbortError`);
* `httpError`: axios rejection carrying a response
  (status, optional `data.detail`, error message);
* `networkError`: axios rejection with no response
  (optional `code`, error message). -/
inductive CPOutcome
  | success (conversation_id : Option Int) (response : String)
      (sources : List (Int × String))
  | successFalse
  | abortError
  | httpError (code : Option String) (status : Int) (detail : Option String)
      (message : String)
  | networkError (code : Option String) (message : String)
deriving DecidableEq, Repr

/-- A callback fired by `ChatPage` towards its parent. -/
inductive CPNotif
  | conversationChange (id : Int)
deriving DecidableEq, Repr

/-- `ChatPage.handleSend` up to the `axios.post`: guard
(`if (!input.trim() || loading || streaming) return`), input clearing,
optimistic user message, `setLoading(true)` and the request body
(`conversation_id: currentConversationId || null`). -/
def cpSendStart (s : CPSendState) : CPSendState × Option ChatRequest :=
  if jsTrim s.input = "" ∨ s.loading ∨ s.streaming then (s, none)
  else
    let userMessage := jsTrim s.input
    ({ s with
        input := ""
        loading := true
        messages := s.messages ++ [⟨"user", userMessage, []⟩] },
     some ⟨userMessage, if jsTruthyId s.currentConv then s.currentConv else none⟩)

/-- Connectivity error text of `ChatPage`. -/
def cpBackendDownText : String :=
  "Cannot connect to backend server. Make sure the backend is running on port 8001."

/-- 503 error text of `ChatPage`. -/
def cpN8nDownText : String := "Cannot connect to n8n. Make sure n8n is running."

/-- Default error text of `ChatPage`. -/
def cpDefaultErrorText : String := "Sorry, I encountered an error. Please try again."

/-- The error-message cascade of `ChatPage.handleSend`'s catch block:
connectivity check first (`code === 'ECONNREFUSED'` or message containing
`'Network Error'`), then 503, then `response.data.detail`, then
`error.message`, then the default text. -/
def cpErrorText (code : Option String) (status : Option Int)
    (detail : Option String) (message : String) : String :=
  if code = some "ECONNREFUSED" ∨ jsIncludes message "Network Error" then
    cpBackendDownText
  else if status = some 503 then
    cpN8nDownText
  else if jsTruthyStr (detail.getD "") then
    "Error: " ++ detail.getD ""
  else if jsTruthyStr message then
    "Error: " ++ message
  else
    cpDefaultErrorText

/-- `ChatPage.handleSend` from the resolution of the `axios.post` onwards:
conversation-id adoption with the `onConversationChange` callback, assistant
message (success) or synthetic assistant error message (failure), early
return on abort, and `setLoading(false)` in the `finally`. -/
def cpSendFinish (s : CPSendState) (o : CPOutcome) : CPSendState × List CPNotif :=
  match o with
  | .success convId resp srcs =>
    let adopt := ¬ jsTruthyId s.currentConv ∧ jsTruthyId convId
    let s1 := if adopt then { s with currentConv := convId } else s
    let notifs := if adopt then (convId.map (fun c => [CPNotif.conversationChange c])).getD [] else []
    ({ s1 with
        messages := s1.messages ++ [⟨"assistant", resp, srcs⟩]
        loading := false },
     notifs)
  | .successFalse =>
    ({ s with
        messages := s.messages ++
          [⟨"assistant", cpErrorText none none none "Failed to get response", []⟩]
        loading := false }, [])
  | .abortError =>
    ({ s with loading := false }, [])
  | .httpError code status detail message =>
    ({ s with
        messages := s.messages ++
          [⟨"assistant", cpErrorText code (some status) detail message, []⟩]
        loading := false }, [])
  | .networkError code message =>
    ({ s with
        messages := s.messages ++
          [⟨"assistant", cpErrorText code none none message, []⟩]
        loading := false }, [])

/-! ## Documents list view: `DocumentsView`
(`DocumentsView.jsx`, first document, lines 18–56) -/

/-- The truthiness-relevant part of `DocumentsView`'s component state:
`deletingId` and `generatingId` start as `null` and hold the id whose
delete / generate-summary request is in flight. -/
structure DVState where
  deletingId : Option Int
  generatingId : Option Int
deriving DecidableEq, Repr

/-- Side effects `DocumentsView` can perform. -/
inductive DVAction
  | deleteRequest (id : Int)
  | postGenerateSummary (id : Int)
  | refresh
deriving DecidableEq, Repr

/-- A `setTimeout` registration: delay in milliseconds and the actions the
timer callback performs when it fires. -/
structure DVTimer where
  delay : Nat
  actions : List DVAction
deriving DecidableEq, Repr

/-- `DocumentsView.handleDelete`: guard `if (deletingId) return` (JavaScript
truthiness on the nullable id), then `setDeletingId(id)` and the
`onDelete(id)` call.  Returns the state at the point the request is in
flight together with the actions issued. -/
def handleDelete (s : DVState) (id : Int) : DVState × List DVAction :=
  if jsTruthyId s.deletingId then (s, [])
  else ({ s with deletingId := some id }, [.deleteRequest id])

/-- `DocumentsView.handleGenerateSummary`: guard `if (generatingId) return`,
then `setGeneratingId(id)`, the `POST /api/documents/{id}/generate-summary`
fetch and — when the fetch resolves (`fetchOk`) — a single
`setTimeout(…, 1000)` whose callback runs `onRefresh()` and
`setGeneratingId(null)`; when the fetch rejects, the catch clears
`generatingId` with no timer.  Returns state, immediate actions and the
timers registered. -/
def handleGenerateSummary (s : DVState) (id : Int) (fetchOk : Bool) :
    DVState × List DVAction × List DVTimer :=
  if jsTruthyId s.generatingId then (s, [], [])
  else if fetchOk then
    ({ s with generatingId := some id }, [.postGenerateSummary id],
     [⟨1000, [.refresh]⟩])
  else
    ({ s with generatingId := none }, [.postGenerateSummary id], [])

/-- The `filtered` memo of `DocumentsView` (lines 25–33): blank-trim search
returns the cache itself, otherwise the cache is filtered by lowercased
`includes` over `filename`, optional `file_type` and optional `summary`
(optional chaining makes a `null` field falsy). -/
def filteredDocs (documents : List DocR) (search : String) : List DocR :=
  if jsTrim search = "" then documents
  else
    let q := jsToLower search
    documents.filter fun d =>
      jsIncludes (jsToLower d.filename) q
      || (match d.file_type with
          | some t => jsIncludes (jsToLower t) q
          | none => false)
      || (match d.summary with
          | some t => jsIncludes (jsToLower t) q
          | none => false)

/-- Spec-side predicate, written from the specification's words: a document
matches a query when its filename, file type or summary "contains the query
as a case-insensitive substring" (a missing field contains nothing).  Used
to compare the source's `filtered` projection against the spec. -/
def specCiMatches (d : DocR) (query : String) : Bool :=
  jsIncludes (jsToLower d.filename) (jsToLower query)
  || (match d.file_type with
      | some t => jsIncludes (jsToLower t) (jsToLower query)
      | none => false)
  || (match d.summary with
      | some t => jsIncludes (jsToLower t) (jsToLower query)
      | none => false)

/-! ## Upload validation: `UploadPage` and `UploadView`
(`UploadPage.jsx` lines 12–42, `UploadView.jsx` lines 12–31) -/

/-- A browser `File` as the validators see it: `name` and MIME `type`. -/
structure JSFile where
  name : String
  type : String
deriving DecidableEq, Repr

/-- `UploadPage`'s `allowedTypes`. -/
def allowedTypes : List String :=
  ["application/pdf", "text/csv", "application/json", "text/plain"]

/-- `UploadPage`'s `allowedExtensions` (also `UploadView`'s `ALLOWED`). -/
def allowedExtensions : List String := [".pdf", ".csv", ".json", ".txt"]

/-- JavaScript `name.split('.')` on the character list. -/
def splitOnDot : List Char → List (List Char)
  | [] => [[]]
  | a :: as =>
    let r := splitOnDot as
    if a = '.' then [] :: r
    else
      match r with
      | [] => [[a]]
      | h :: t => (a :: h) :: t

/-- `'.' + file.name.split('.').pop().toLowerCase()`. -/
def jsFileExt (name : String) : String :=
  ⟨'.' :: ((splitOnDot name.data).getLastD []).map Char.toLower⟩

/-- `UploadPage.validateFile`: the file passes when its MIME type is in
`allowedTypes` **or** its extension is in `allowedExtensions`. -/
def validateFile (f : JSFile) : Bool :=
  decide (f.type ∈ allowedTypes) || decide (jsFileExt f.name ∈ allowedExtensions)

/-- A `setMessage` value of `UploadPage`. -/
structure UPMessage where
  type : String
  text : String
deriving DecidableEq, Repr

/-- The rejection text `UploadPage.handleFilesSelect` builds for `n`
rejected files. -/
def upRejectText (n : Nat) : String :=
  toString n ++ " file(s) were rejected. Only PDF, CSV, JSON, and TXT files are allowed."

/-- `UploadPage.handleFilesSelect`: partition the selection by
`validateFile`; a non-empty invalid part sets an error message, a non-empty
valid part is appended to the pending-files list and blanks the message.
No network request is made on this path (uploading happens later in
`handleUpload` over the pending list only).  Returns the valid files added,
the message state after the call, and the number of network calls made. -/
def handleFilesSelect (fileList : List JSFile) (prevMessage : UPMessage) :
    List JSFile × UPMessage × Nat :=
  let validFiles := fileList.filter validateFile
  let invalidFiles := fileList.filter (fun f => ¬ validateFile f)
  let m1 := if invalidFiles.length > 0 then ⟨"error", upRejectText invalidFiles.length⟩
            else prevMessage
  let m2 := if validFiles.length > 0 then ⟨"", ""⟩ else m1
  (validFiles, m2, 0)

/-- `UploadView.isValid`: extension-only check. -/
def uvIsValid (f : JSFile) : Bool :=
  decide (jsFileExt f.name ∈ allowedExtensions)

/-- `UploadView.addFiles`: silently keeps only the valid files (no message,
no request). -/
def uvAddFiles (prev : List JSFile) (newFiles : List JSFile) : List JSFile :=
  prev ++ newFiles.filter uvIsValid

/-! ## Document deletion: `DocumentManager.handleDelete` and
`App.deleteDocument` (`DocumentManager.jsx` lines 52–70, `App.jsx`
lines 197–207) -/

/-- A document row as the delete handlers see it. -/
structure DelDoc where
  id : Int
  filename : String
deriving DecidableEq, Repr

/-- Resolution of `axios.delete('/api/documents/{id}')`: a 2xx response
with its `data.success` flag, or a rejection (non-2xx status, or no
response at all). -/
inductive AxiosDelOutcome
  | resolved (success : Bool)
  | httpError (status : Int)
  | networkError
deriving DecidableEq, Repr

/-- Result state of `DocumentManager.handleDelete`. -/
structure DMDeleteResult where
  documents : List DelDoc
  selectedDocs : List Int
  deleting : Bool
  alerts : List String
  requested : Bool
deriving DecidableEq, Repr

/-- The alert text of `DocumentManager.handleDelete`'s catch block. -/
def dmDeleteFailText : String := "Failed to delete document. Please try again."

/-- `DocumentManager.handleDelete`: `window.confirm` gate, then the DELETE
request; the list is filtered only when the response resolved with
`data.success`, the catch alerts and leaves the list unchanged, and the
`finally` clears `deleting`. -/
def dmHandleDelete (documents : List DelDoc) (selectedDocs : List Int)
    (confirmed : Bool) (docId : Int) (o : AxiosDelOutcome) : DMDeleteResult :=
  if ¬ confirmed then ⟨documents, selectedDocs, false, [], false⟩
  else
    match o with
    | .resolved true =>
      ⟨documents.filter (fun d => d.id ≠ docId),
       selectedDocs.filter (fun i => i ≠ docId), false, [], true⟩
    | .resolved false => ⟨documents, selectedDocs, false, [], true⟩
    | .httpError _ => ⟨documents, selectedDocs, false, [dmDeleteFailText], true⟩
    | .networkError => ⟨documents, selectedDocs, false, [dmDeleteFailText], true⟩

/-- Resolution of `fetch(…, {method:'DELETE'})` in `App.deleteDocument`:
`fetch` resolves for every HTTP status (with `res.ok` false on 4xx/5xx) and
rejects only on network failure. -/
inductive FetchDelOutcome
  | resolved (ok : Bool)
  | networkError
deriving DecidableEq, Repr

/-- Result state of `App.deleteDocument`. -/
structure AppDelResult where
  documents : List DelDoc
  statsDocuments : Int
  notifications : List String
deriving DecidableEq, Repr

/-- `App.deleteDocument`: removes the row and decrements the stats counter
only when `res.ok`; a non-ok response falls through with no action at all,
and the catch only logs to the console (`notifications` collects the
user-visible notifications — alerts, toasts or similar — the function
shows; it shows none). -/
def appDeleteDocument (documents : List DelDoc) (stats : Int) (id : Int)
    (o : FetchDelOutcome) : AppDelResult :=
  match o with
  | .resolved true => ⟨documents.filter (fun d => d.id ≠ id), stats - 1, []⟩
  | .resolved false => ⟨documents, stats, []⟩
  | .networkError => ⟨documents, stats, []⟩

/-! ## Request lifecycle of `ChatPage`'s conversation loading
(`DocumentsView.jsx`, second document, lines 339–418)

`ChatPage` keeps one `AbortController` in `abortControllerRef`; the effect on
a conversation change aborts the previous controller, creates a fresh one and
issues `loadConversation` under its signal.  Controllers are modelled by
monotonically assigned `Nat` tokens; an aborted token's axios request rejects
with `CanceledError`.  React state setters are no-ops once the component is
unmounted, which the `mounted` flag captures. -/

structure CPState where
  mounted : Bool
  messages : List ChatMsg
  currentConv : Option Int
  loadingMessages : Bool
  curToken : Nat
  nextToken : Nat
  aborted : List Nat
  pending : List (Nat × Int)
deriving DecidableEq, Repr

/-- `setMessages`, suppressed after unmount. -/
def cpSetMessages (s : CPState) (m : List ChatMsg) : CPState :=
  if s.mounted then { s with messages := m } else s

/-- `setLoadingMessages`, suppressed after unmount. -/
def cpSetLoadingMessages (s : CPState) (b : Bool) : CPState :=
  if s.mounted then { s with loadingMessages := b } else s

/-- The effect body run when the selected conversation changes to `c`:
abort the previous controller, create a fresh one, record the selection and
issue `GET /api/conversations/{c}` under the fresh signal
(`loadConversation` sets `loadingMessages` before awaiting). -/
def cpSelect (s : CPState) (c : Int) : CPState :=
  { s with
      aborted := s.curToken :: s.aborted
      curToken := s.nextToken
      nextToken := s.nextToken + 1
      currentConv := some c
      pending := (s.nextToken, c) :: s.pending
      loadingMessages := true }

/-- Resolution of the `GET /api/conversations/{c}` issued under token `t`,
where `env c` is the message list the server holds for conversation `c`.
An aborted token means axios rejects with `CanceledError`: the catch's name
check swallows it and only the `finally` runs.  The returned `Bool` is true
when a rejection escapes the handler (the `try`/`catch` catches every
error, so it never does). -/
def cpResolve (env : Int → List ChatMsg) (s : CPState) (t : Nat) (c : Int) :
    CPState × Bool :=
  if (t, c) ∈ s.pending then
    if t ∈ s.aborted then
      (cpSetLoadingMessages s false, false)
    else
      (cpSetLoadingMessages (cpSetMessages s (env c)) false, false)
  else (s, false)

/-- An event of the conversation-loading lifecycle: the user selecting a
conversation, or the network resolving one of the issued requests. -/
inductive CPEvent
  | select (c : Int)
  | resolve (t : Nat) (c : Int)
deriving DecidableEq, Repr

/-- One lifecycle step. -/
def cpStep (env : Int → List ChatMsg) (s : CPState) : CPEvent → CPState
  | .select c => cpSelect s c
  | .resolve t c => (cpResolve env s t c).1

/-- Run a sequence of lifecycle events. -/
def cpRun (env : Int → List ChatMsg) (s : CPState) (es : List CPEvent) : CPState :=
  es.foldl (cpStep env) s

/-- Initial `ChatPage` state: mounted, empty message list, no conversation,
controller 0 live, nothing in flight. -/
def cpInit : CPState :=
  ⟨true, [], none, false, 0, 1, [], []⟩

/-- The latest conversation id selected by an event sequence, starting from
selection `acc`. -/
def cpLastSelAux (es : List CPEvent) (acc : Option Int) : Option Int :=
  es.foldl (fun a e => match e with | .select c => some c | .resolve _ _ => a) acc

/-- The latest conversation id selected by an event sequence. -/
def cpLastSelected (es : List CPEvent) : Option Int :=
  cpLastSelAux es none

/-- The token discipline `ChatPage` maintains: while mounted, every pending
request whose token has not been aborted is the one issued under the
currently live controller, for the currently selected conversation. -/
def cpInv (s : CPState) : Prop :=
  s.mounted = true ∧
    ∀ t c, (t, c) ∈ s.pending → t ∉ s.aborted →
      t = s.curToken ∧ s.currentConv = some c

/-- The unmount cleanup of `ChatPage` (lines 343–354): abort the active
controller, then `setLoading(false)` / `setStreaming(false)` /
`setLoadingMessages(false)` — no-ops on the unmounted component. -/
def cpUnmount (s : CPState) : CPState :=
  let s1 := { s with aborted := s.curToken :: s.aborted, mounted := false }
  cpSetLoadingMessages s1 false

/-! ## Request lifecycle of `ChatView`'s conversation loading
(`ConversationSidebar.jsx`, second document, lines 247–268)

`ChatView.loadConversation` uses a bare `fetch` with no abort signal and no
token comparison: every successful resolution calls `setMessages`. -/

structure CVLoadState where
  messages : List ChatMsg
  currentConvId : Option Int
  isLoading : Bool
  pending : List Int
deriving DecidableEq, Repr

/-- An event of `ChatView`'s loading lifecycle. -/
inductive CVLoadEvent
  | select (c : Int)
  | resolve (c : Int)
deriving DecidableEq, Repr

/-- One step: selecting conversation `c` records it and issues
`GET /api/conversations/{c}`; a successful resolution for `c`
unconditionally applies `env c` to the message list. -/
def cvlStep (env : Int → List ChatMsg) (s : CVLoadState) : CVLoadEvent → CVLoadState
  | .select c =>
      { s with currentConvId := some c, isLoading := true, pending := c :: s.pending }
  | .resolve c =>
      if c ∈ s.pending then
        { s with messages := env c, isLoading := false }
      else s

/-- Run a sequence of `ChatView` loading events. -/
def cvlRun (env : Int → List ChatMsg) (s : CVLoadState) (es : List CVLoadEvent) :
    CVLoadState :=
  es.foldl (cvlStep env) s

/-- Initial `ChatView` state. -/
def cvlInit : CVLoadState := ⟨[], none, false, []⟩

/-- Server contents used by the stale-overwrite counterexample: conversation
1 and conversation 2 hold different messages. -/
def cvlCexEnv : Int → List ChatMsg :=
  fun c => if c = 1 then [⟨"assistant", "from conversation one", []⟩]
           else [⟨"assistant", "from conversation two", []⟩]

/-! ## Request lifecycle of `DocumentManager`
(`DocumentManager.jsx` lines 14–50) -/

structure DMState where
  mounted : Bool
  documents : List DelDoc
  loading : Bool
  deleting : Bool
  curToken : Nat
  aborted : List Nat
deriving DecidableEq, Repr

/-- `setDocuments`, suppressed after unmount. -/
def dmSetDocuments (s : DMState) (d : List DelDoc) : DMState :=
  if s.mounted then { s with documents := d } else s

/-- `setLoading`, suppressed after unmount. -/
def dmSetLoading (s : DMState) (b : Bool) : DMState :=
  if s.mounted then { s with loading := b } else s

/-- `setDeleting`, suppressed after unmount. -/
def dmSetDeleting (s : DMState) (b : Bool) : DMState :=
  if s.mounted then { s with deleting := b } else s

/-- The unmount cleanup of `DocumentManager` (lines 17–24): abort the
active controller, then `setLoading(false)` / `setDeleting(false)` —
no-ops on the unmounted component. -/
def dmUnmount (s : DMState) : DMState :=
  let s1 := { s with aborted := s.curToken :: s.aborted, mounted := false }
  dmSetDeleting (dmSetLoading s1 false) false

/-- Resolution of the `GET /api/documents` issued under token `t` with
server payload `data`.  An aborted token rejects with `CanceledError`,
swallowed by the catch's name check; only the `finally`'s
`setLoading(false)` runs.  The `Bool` is true when a rejection escapes the
handler (it never does). -/
def dmResolveLoad (data : List DelDoc) (s : DMState) (t : Nat) : DMState × Bool :=
  if t ∈ s.aborted then
    (dmSetLoading s false, false)
  else
    (dmSetLoading (dmSetDocuments s data) false, false)

/-- Document cache used by the blank-query counterexample for the filter. -/
def c9Docs : List DocR := [⟨1, "a", some "pdf", none⟩]

/-- Document cache used by the delete-failure counterexample. -/
def c5Docs : List DelDoc := [⟨5, "report.pdf"⟩]

/-! ## Theorems -/

/-- **C3.** For every input text that is empty or whitespace-only, and for
every call made while a send is already in flight, `send(text)` is a no-op
in both chat components: the state is returned unchanged (no user message
appended, session state untouched) and no `POST /api/chat` request is
issued. -/
theorem send_noop_on_blank_or_inflight (sv : CVState) (sp : CPSendState)
    (hv : jsTrim sv.input = "" ∨ sv.isSending = true)
    (hp : jsTrim sp.input = "" ∨ sp.loading = true ∨ sp.streaming = true) :
    cvSendStart sv = (sv, none) ∧ cpSendStart sp = (sp, none) := by
  constructor
  · unfold cvSendStart
    rcases hv with h | h <;> simp [h]
  · unfold cpSendStart
    rcases hp with h | h | h <;> simp [h]

/-- Witness for C3: `send("   ")` and `send("")` are no-ops on concrete
states, via the main theorem. -/
theorem send_noop_on_blank_or_inflight_witness :
    cvSendStart ⟨[], "   ", false, none⟩ = (⟨[], "   ", false, none⟩, none)
    ∧ cpSendStart ⟨[], "", false, false, none⟩ = (⟨[], "", false, false, none⟩, none) :=
  send_noop_on_blank_or_inflight ⟨[], "   ", false, none⟩ ⟨[], "", false, false, none⟩
    (Or.inl (by decide)) (Or.inl (by decide))

/-- **C9 counterexample.** For the whitespace-only query `" "` the filter
returns the entire cache, not the (empty) set of documents containing `" "`
as a case-insensitive substring: the claim's "for every query string" fails
on blank-trim queries. -/
theorem filtered_blank_query_cex :
    filteredDocs c9Docs " " ≠ c9Docs.filter (fun d => specCiMatches d " ")
    ∧ filteredDocs c9Docs " " = c9Docs
    ∧ c9Docs.filter (fun d => specCiMatches d " ") = [] := by decide

/-- **C9 (amended).** The documents filter is a pure projection of the
cache: a query whose JavaScript-trim is empty short-circuits to the whole
cache, and every other query yields exactly the cached documents whose
filename, file type or summary contains the query as a case-insensitive
substring (a `null` field never matches); the cache itself is never
mutated (the projection is a pure function of it). -/
theorem filtered_is_ci_substring_projection (documents : List DocR) (search : String) :
    (jsTrim search = "" → filteredDocs documents search = documents)
    ∧ (jsTrim search ≠ "" →
        filteredDocs documents search
          = documents.filter (fun d => specCiMatches d search)) := by
  constructor
  · intro h
    simp [filteredDocs, h]
  · intro h
    simp [filteredDocs, specCiMatches, h]

/-- Witness for C9 (amended): both branches evaluated on a concrete cache,
via the main theorem. -/
theorem filtered_is_ci_substring_projection_witness :
    filteredDocs c9Docs " " = c9Docs
    ∧ filteredDocs c9Docs "PDF" = c9Docs.filter (fun d => specCiMatches d "PDF") :=
  ⟨(filtered_is_ci_substring_projection c9Docs " ").1 (by decide),
   (filtered_is_ci_substring_projection c9Docs "PDF").2 (by decide)⟩

/-- **C7 counterexample.** `UploadPage.validateFile` accepts a file whose
extension is disallowed whenever its MIME type is allowed (the check is a
disjunction, not a conjunction): `report.exe` with MIME type
`application/pdf` passes validation and would be submitted.  Moreover the
rejection text never names the offending extension (it does not contain
`".exe"`). -/
theorem upload_validation_disjunction_cex :
    validateFile ⟨"report.exe", "application/pdf"⟩ = true
    ∧ jsFileExt "report.exe" = ".exe"
    ∧ ((".exe" : String) ∈ allowedExtensions ↔ False)
    ∧ jsIncludes (upRejectText 1) ".exe" = false := by decide

/-- **C7 (amended).** `UploadPage` accepts a file when its MIME type *or*
its lowercased extension is allowed; `UploadView` checks the extension
only.  A file such as `report.exe` whose MIME type is also not an accepted
type is rejected before any network call: it is not added to the pending
upload list (so `handleUpload` can never submit it), `UploadPage` shows a
validation error stating how many files were rejected and which types are
allowed (it does not name the disallowed extension), and `UploadView`
silently drops the file. -/
theorem upload_rejects_disallowed (f : JSFile) (prevMessage : UPMessage)
    (prev : List JSFile)
    (hm : f.type ∉ allowedTypes) (he : jsFileExt f.name ∉ allowedExtensions) :
    validateFile f = false
    ∧ handleFilesSelect [f] prevMessage = ([], ⟨"error", upRejectText 1⟩, 0)
    ∧ uvAddFiles prev [f] = prev := by
  have hv : validateFile f = false := by
    simp [validateFile, hm, he]
  refine ⟨hv, ?_, ?_⟩
  · simp [handleFilesSelect, hv]
  · simp [uvAddFiles, uvIsValid, he]

/-- Witness for C7 (amended): `report.exe` with a generic binary MIME type
is rejected by both components, via the main theorem. -/
theorem upload_rejects_disallowed_witness :
    validateFile ⟨"report.exe", "application/octet-stream"⟩ = false
    ∧ handleFilesSelect [⟨"report.exe", "application/octet-stream"⟩] ⟨"", ""⟩
        = ([], ⟨"error", upRejectText 1⟩, 0)
    ∧ uvAddFiles [] [⟨"report.exe", "application/octet-stream"⟩] = [] :=
  upload_rejects_disallowed ⟨"report.exe", "application/octet-stream"⟩ ⟨"", ""⟩ []
    (by decide) (by decide)

/-- **C5 counterexample.** When `DELETE /api/documents/5` comes back non-ok
(e.g. HTTP 500), `App.deleteDocument` leaves the cached list unchanged —
document 5 is still present — but shows **no** user-visible error
notification (`fetch` resolves with `ok: false`, the `if (res.ok)` branch
is skipped and the `catch` never fires), refuting the claim's "a
user-visible error notification is shown". -/
theorem app_delete_failure_silent_cex :
    (appDeleteDocument c5Docs 1 5 (.resolved false)).documents = c5Docs
    ∧ (appDeleteDocument c5Docs 1 5 (.resolved false)).notifications = [] := by decide

/-- **C5 (amended).** Deletion is confirm-then-apply in both components:
the item is removed from the cached list only after the server confirms
success, and on every failure the cached list is unchanged — the item is
never optimistically removed.  `DocumentManager.handleDelete` shows an
alert on every rejected request (HTTP error status or network failure),
while `App.deleteDocument` surfaces no user-visible notification on
failure. -/
theorem delete_confirm_then_apply
    (docs : List DelDoc) (sel : List Int) (stats : Int) (id : Int)
    (o : AxiosDelOutcome) (o' : FetchDelOutcome)
    (ho : o ≠ .resolved true) (ho' : o' ≠ .resolved true) :
    (dmHandleDelete docs sel true id o).documents = docs
    ∧ (o = .resolved false ∨ (dmHandleDelete docs sel true id o).alerts = [dmDeleteFailText])
    ∧ (dmHandleDelete docs sel true id (.resolved true)).documents
        = docs.filter (fun d => d.id ≠ id)
    ∧ (appDeleteDocument docs stats id o').documents = docs
    ∧ (appDeleteDocument docs stats id o').notifications = []
    ∧ (appDeleteDocument docs stats id (.resolved true)).documents
        = docs.filter (fun d => d.id ≠ id) := by
  cases o with
  | resolved b =>
    cases b
    · cases o' <;> simp_all [dmHandleDelete, appDeleteDocument]
    · simp_all
  | httpError st => cases o' <;> simp_all [dmHandleDelete, appDeleteDocument]
  | networkError => cases o' <;> simp_all [dmHandleDelete, appDeleteDocument]

/-- Witness for C5 (amended): an HTTP 500 rejection against
`DocumentManager` and a non-ok response against `App`, on the list holding
document 5, via the main theorem. -/
theorem delete_confirm_then_apply_witness :
    (dmHandleDelete c5Docs [] true 5 (.httpError 500)).documents = c5Docs
    ∧ ((.httpError 500 : AxiosDelOutcome) = .resolved false
        ∨ (dmHandleDelete c5Docs [] true 5 (.httpError 500)).alerts = [dmDeleteFailText])
    ∧ (dmHandleDelete c5Docs [] true 5 (.resolved true)).documents
        = c5Docs.filter (fun d => d.id ≠ 5)
    ∧ (appDeleteDocument c5Docs 1 5 (.networkError)).documents = c5Docs
    ∧ (appDeleteDocument c5Docs 1 5 (.networkError)).notifications = []
    ∧ (appDeleteDocument c5Docs 1 5 (.resolved true)).documents
        = c5Docs.filter (fun d => d.id ≠ 5) :=
  delete_confirm_then_apply c5Docs [] 1 5 (.httpError 500) .networkError
    (by decide) (by decide)

/-- **C8.** While a generate-summary trigger is outstanding for a (nonzero,
backend-assigned) document id, every call of `handleGenerateSummary` — in
particular a repeat call for that same id — is ignored: no state change, no
second `POST /api/documents/{id}/generate-summary`.  A call made when no
trigger is outstanding issues exactly one POST and registers exactly one
timer, with the fixed delay 1000 ms, whose callback performs exactly one
re-fetch of the document list — a single deferred re-fetch, not continuous
polling. -/
theorem generate_summary_guard_and_single_refresh
    (s : DVState) (id j : Int) (fetchOk : Bool)
    (hout : s.generatingId = some j) (hj : j ≠ 0)
    (s' : DVState) (id' : Int) (hidle : s'.generatingId = none) :
    handleGenerateSummary s id fetchOk = (s, [], [])
    ∧ ((handleGenerateSummary s' id' true).2.1.count (.postGenerateSummary id') = 1
        ∧ (handleGenerateSummary s' id' true).2.2 = [⟨1000, [.refresh]⟩]
        ∧ (((handleGenerateSummary s' id' true).2.1
              ++ ((handleGenerateSummary s' id' true).2.2.map DVTimer.actions).flatten).count
             .refresh = 1)) := by
  refine ⟨?_, ?_⟩
  · simp [handleGenerateSummary, hout, jsTruthyId, hj]
  · simp [handleGenerateSummary, hidle, jsTruthyId]

/-- Witness for C8: with the trigger for document 7 outstanding, a repeat
`handleGenerateSummary(7)` is ignored; from the idle state the call makes
one POST and one 1000 ms timer with one refresh, via the main theorem. -/
theorem generate_summary_guard_witness :
    handleGenerateSummary ⟨none, some 7⟩ 7 true = (⟨none, some 7⟩, [], [])
    ∧ ((handleGenerateSummary ⟨none, none⟩ 7 true).2.1.count (.postGenerateSummary 7) = 1
        ∧ (handleGenerateSummary ⟨none, none⟩ 7 true).2.2 = [⟨1000, [.refresh]⟩]
        ∧ (((handleGenerateSummary ⟨none, none⟩ 7 true).2.1
              ++ ((handleGenerateSummary ⟨none, none⟩ 7 true).2.2.map DVTimer.actions).flatten).count
             .refresh = 1)) :=
  generate_summary_guard_and_single_refresh ⟨none, some 7⟩ 7 7 true rfl (by decide)
    ⟨none, none⟩ 7 rfl

/-- **C10.** The pending guards of `DocumentsView` are global across
document ids: while a delete is pending for any (nonzero) id, `handleDelete`
is a no-op for *every* id — including ids different from the pending one —
and issues no request; likewise, while a generate-summary trigger is
outstanding for any (nonzero) id, `handleGenerateSummary` is a no-op for
every id.  Hence at most one delete and at most one generate-summary
request are in flight at any time across the whole view. -/
theorem pending_guards_are_global
    (s : DVState) (i j : Int) (hd : s.deletingId = some j) (hj : j ≠ 0)
    (s2 : DVState) (i2 k : Int) (fetchOk : Bool)
    (hg : s2.generatingId = some k) (hk : k ≠ 0) :
    handleDelete s i = (s, [])
    ∧ handleGenerateSummary s2 i2 fetchOk = (s2, [], []) := by
  constructor
  · simp [handleDelete, hd, jsTruthyId, hj]
  · simp [handleGenerateSummary, hg, jsTruthyId, hk]

/-- Witness for C10: with a delete pending for id 3, deleting id 9 is a
no-op; with generation outstanding for id 7, generating for id 2 is a
no-op — via the main theorem. -/
theorem pending_guards_are_global_witness :
    handleDelete ⟨some 3, none⟩ 9 = (⟨some 3, none⟩, [])
    ∧ handleGenerateSummary ⟨none, some 7⟩ 2 true = (⟨none, some 7⟩, [], []) :=
  pending_guards_are_global ⟨some 3, none⟩ 9 3 rfl (by decide)
    ⟨none, some 7⟩ 2 7 true rfl (by decide)

/-- **C6.** For every successful first send issued with no conversation id,
both chat components adopt the server-returned (nonzero) `conversation_id`
and fire their conversation-list callback (`onConversationCreated` /
`onConversationChange`, which the app uses to refresh the conversation
list), and every subsequent send issues its request carrying exactly that
adopted id — so a later rename or delete issued by the sidebar for that id
targets the same server-assigned id. -/
theorem first_send_adopts_server_id
    (s1 : CVState) (cid : Int) (resp : String) (srcs : List (Int × String))
    (h1 : s1.currentConvId = none) (hcid : cid ≠ 0)
    (nextInput : String) (hnext : jsTrim nextInput ≠ "")
    (p1 : CPSendState) (cid' : Int) (resp' : String) (srcs' : List (Int × String))
    (h2 : p1.currentConv = none) (hcid' : cid' ≠ 0)
    (nextInput' : String) (hnext' : jsTrim nextInput' ≠ "")
    (hstream : p1.streaming = false) :
    ((cvSendFinish s1 (.success (some cid) resp srcs)).1.currentConvId = some cid)
    ∧ ((cvSendFinish s1 (.success (some cid) resp srcs)).2
        = [.conversationCreated cid])
    ∧ ((cvSendStart
          { (cvSendFinish s1 (.success (some cid) resp srcs)).1 with
              input := nextInput }).2
        = some ⟨jsTrim nextInput, some cid⟩)
    ∧ ((cpSendFinish p1 (.success (some cid') resp' srcs')).1.currentConv = some cid')
    ∧ ((cpSendFinish p1 (.success (some cid') resp' srcs')).2
        = [.conversationChange cid'])
    ∧ ((cpSendStart
          { (cpSendFinish p1 (.success (some cid') resp' srcs')).1 with
              input := nextInput' }).2
        = some ⟨jsTrim nextInput', some cid'⟩) := by
  have hadopt : (¬ jsTruthyId s1.currentConvId ∧ jsTruthyId (some cid)) := by
    simp [h1, jsTruthyId, hcid]
  have hadopt' : (¬ jsTruthyId p1.currentConv ∧ jsTruthyId (some cid')) := by
    simp [h2, jsTruthyId, hcid']
  refine ⟨?_, ?_, ?_, ?_, ?_, ?_⟩ <;>
    simp [cvSendFinish, cpSendFinish, cvSendStart, cpSendStart, h1, h2,
      jsTruthyId, hcid, hcid', hnext, hnext', hstream]

/-- Witness for C6: a first send from the empty session adopting server id
42 (`ChatView`) and 99 (`ChatPage`), with the follow-up send carrying the
adopted id, via the main theorem. -/
theorem first_send_adopts_server_id_witness :
    ((cvSendFinish ⟨[], "", true, none⟩ (.success (some 42) "hello" [])).1.currentConvId
        = some 42)
    ∧ ((cvSendFinish ⟨[], "", true, none⟩ (.success (some 42) "hello" [])).2
        = [.conversationCreated 42])
    ∧ ((cvSendStart
          { (cvSendFinish ⟨[], "", true, none⟩ (.success (some 42) "hello" [])).1 with
              input := "again" }).2
        = some ⟨jsTrim "again", some 42⟩)
    ∧ ((cpSendFinish ⟨[], "", true, false, none⟩ (.success (some 99) "hi" [])).1.currentConv
        = some 99)
    ∧ ((cpSendFinish ⟨[], "", true, false, none⟩ (.success (some 99) "hi" [])).2
        = [.conversationChange 99])
    ∧ ((cpSendStart
          { (cpSendFinish ⟨[], "", true, false, none⟩ (.success (some 99) "hi" [])).1 with
              input := "more" }).2
        = some ⟨jsTrim "more", some 99⟩) :=
  first_send_adopts_server_id ⟨[], "", true, none⟩ 42 "hello" [] rfl (by decide)
    "again" (by decide) ⟨[], "", true, false, none⟩ 99 "hi" [] rfl (by decide)
    "more" (by decide) rfl

/-- No `detail`/`message`-derived error text (prefixed `"Error: "`) can
collide with `ChatPage`'s dedicated connectivity text. -/
theorem errPrefix_ne_backendText (d : String) : "Error: " ++ d ≠ cpBackendDownText := by
  intro h
  have h2 := congrArg String.data h
  rw [String.data_append] at h2
  have h3 : 'E' :: ("rror: ".data ++ d.data) = cpBackendDownText.data := h2
  simp [cpBackendDownText, String.data] at h3

/-- **C4.** For every non-empty send in either chat component, the locally
constructed user message is appended to the message list already when the
request is issued (before it resolves), and it is never removed afterwards:
after any outcome the pre-resolution message list is still an initial
segment of the final one.  Every non-cancelled failure appends an
assistant-role error message instead of throwing or rolling back, and the
appended texts distinguish connectivity failures from server-side failures:
`ChatView` uses two distinct fixed texts, and in `ChatPage` a genuine
connectivity failure (`ECONNREFUSED` / axios `Network Error`) yields the
dedicated backend-down text while no server-side failure (HTTP error
response or `success: false` body) can produce that text.  A cancelled
request appends nothing and still keeps the user message. -/
theorem optimistic_send_and_error_messages
    (sv : CVState) (hvg : ¬(jsTrim sv.input = "" ∨ sv.isSending = true))
    (o : CVOutcome)
    (sp : CPSendState)
    (hpg : ¬(jsTrim sp.input = "" ∨ sp.loading = true ∨ sp.streaming = true))
    (op : CPOutcome)
    (code : Option String) (status : Int) (detail : Option String) (msg : String)
    (hsrv : ¬(code = some "ECONNREFUSED" ∨ jsIncludes msg "Network Error" = true))
    (ncode : Option String) (nmsg : String)
    (hconn : ncode = some "ECONNREFUSED" ∨ jsIncludes nmsg "Network Error" = true) :
    (cvSendStart sv).1.messages = sv.messages ++ [⟨"user", jsTrim sv.input, []⟩]
    ∧ ((cvSendFinish (cvSendStart sv).1 o).1.messages.take
          (cvSendStart sv).1.messages.length = (cvSendStart sv).1.messages)
    ∧ ((cvSendFinish (cvSendStart sv).1 .serverFailure).1.messages
        = (cvSendStart sv).1.messages ++ [⟨"assistant", cvServerErrorText, []⟩])
    ∧ ((cvSendFinish (cvSendStart sv).1 .connectionError).1.messages
        = (cvSendStart sv).1.messages ++ [⟨"assistant", cvConnErrorText, []⟩])
    ∧ cvServerErrorText ≠ cvConnErrorText
    ∧ (cpSendStart sp).1.messages = sp.messages ++ [⟨"user", jsTrim sp.input, []⟩]
    ∧ ((cpSendFinish (cpSendStart sp).1 op).1.messages.take
          (cpSendStart sp).1.messages.length = (cpSendStart sp).1.messages)
    ∧ ((cpSendFinish (cpSendStart sp).1 (.httpError code status detail msg)).1.messages
        = (cpSendStart sp).1.messages
            ++ [⟨"assistant", cpErrorText code (some status) detail msg, []⟩])
    ∧ ((cpSendFinish (cpSendStart sp).1 (.networkError ncode nmsg)).1.messages
        = (cpSendStart sp).1.messages ++ [⟨"assistant", cpBackendDownText, []⟩])
    ∧ cpErrorText code (some status) detail msg ≠ cpBackendDownText
    ∧ cpErrorText none none none "Failed to get response" ≠ cpBackendDownText
    ∧ (cpSendFinish (cpSendStart sp).1 .abortError).1.messages
        = (cpSendStart sp).1.messages := by
  have htake : ∀ (l : List ChatMsg) (m : ChatMsg), (l ++ [m]).take l.length = l :=
    fun l m => List.take_left l [m]
  have hne10 : cpErrorText code (some status) detail msg ≠ cpBackendDownText := by
    unfold cpErrorText
    split
    · next hc => exact absurd hc hsrv
    · split
      · decide
      · split
        · exact errPrefix_ne_backendText _
        · split
          · exact errPrefix_ne_backendText _
          · decide
  refine ⟨?_, ?_, ?_, ?_, by decide, ?_, ?_, ?_, ?_, hne10, by decide, ?_⟩
  · simp [cvSendStart, hvg]
  · cases o <;>
      simp [cvSendFinish, apply_ite CVState.messages, htake]
  · simp [cvSendFinish]
  · simp [cvSendFinish]
  · simp [cpSendStart, hpg]
  · cases op <;>
      simp [cpSendFinish, apply_ite CPSendState.messages, htake]
  · simp [cpSendFinish]
  · have : cpErrorText ncode none none nmsg = cpBackendDownText := by
      unfold cpErrorText
      split
      · rfl
      · next hc => exact absurd hconn hc
    simp [cpSendFinish, this]
  · simp [cpSendFinish]

/-- Witness for C4: a concrete non-empty send with a server failure in
`ChatView`, a concrete 500-with-detail server failure and a concrete
`Network Error` connectivity failure in `ChatPage`, via the main theorem. -/
theorem optimistic_send_witness :
    (cvSendStart ⟨[], "hi", false, none⟩).1.messages = [⟨"user", jsTrim "hi", []⟩]
    ∧ ((cvSendFinish (cvSendStart ⟨[], "hi", false, none⟩).1 .serverFailure).1.messages
        = (cvSendStart ⟨[], "hi", false, none⟩).1.messages
            ++ [⟨"assistant", cvServerErrorText, []⟩])
    ∧ cpErrorText none (some 500) (some "boom") "Request failed with status code 500"
        ≠ cpBackendDownText
    ∧ (cpSendFinish (cpSendStart ⟨[], "yo", false, false, none⟩).1 .abortError).1.messages
        = (cpSendStart ⟨[], "yo", false, false, none⟩).1.messages := by
  have h := optimistic_send_and_error_messages
    ⟨[], "hi", false, none⟩ (by decide) .serverFailure
    ⟨[], "yo", false, false, none⟩ (by decide) .abortError
    none 500 (some "boom") "Request failed with status code 500" (by decide)
    none "Network Error" (Or.inr (by decide))
  refine ⟨?_, h.2.2.1, h.2.2.2.2.2.2.2.2.2.1, h.2.2.2.2.2.2.2.2.2.2.2⟩
  simpa using h.1

/-- **C2.** Unmounting a component while its fetch is pending cancels the
active token, and every subsequent resolution or rejection of that
cancelled request is a no-op: the component state after the resolution is
exactly the state at unmount (no state update — the `CanceledError` path
only reaches suppressed setters) and no rejection escapes the handlers
(no unhandled rejection).  Proved for `DocumentManager`'s document-list
fetch and `ChatPage`'s conversation fetch. -/
theorem unmount_cancels_and_resolution_noop
    (sd : DMState) (t : Nat) (data : List DelDoc) (ht : t = sd.curToken)
    (sp : CPState) (t' : Nat) (c : Int) (env : Int → List ChatMsg)
    (ht' : t' = sp.curToken) :
    (t ∈ (dmUnmount sd).aborted
      ∧ (dmUnmount sd).mounted = false
      ∧ dmResolveLoad data (dmUnmount sd) t = (dmUnmount sd, false))
    ∧ (t' ∈ (cpUnmount sp).aborted
      ∧ (cpUnmount sp).mounted = false
      ∧ cpResolve env (cpUnmount sp) t' c = (cpUnmount sp, false)) := by
  have hdm : dmUnmount sd
      = { sd with aborted := sd.curToken :: sd.aborted, mounted := false } := by
    simp [dmUnmount, dmSetLoading, dmSetDeleting]
  have hcp : cpUnmount sp
      = { sp with aborted := sp.curToken :: sp.aborted, mounted := false } := by
    simp [cpUnmount, cpSetLoadingMessages]
  refine ⟨⟨?_, ?_, ?_⟩, ⟨?_, ?_, ?_⟩⟩
  · rw [hdm, ht]; exact List.mem_cons_self _ _
  · rw [hdm]
  · rw [hdm]
    simp [dmResolveLoad, ht, dmSetLoading]
  · rw [hcp, ht']; exact List.mem_cons_self _ _
  · rw [hcp]
  · rw [hcp]
    simp [cpResolve, ht', cpSetLoadingMessages]

/-- Witness for C2: a `DocumentManager` instance with the mount-time load
in flight under token 0 and a `ChatPage` instance with `GET
/api/conversations/5` in flight under token 0, both unmounted before the
response arrives, via the main theorem. -/
theorem unmount_cancels_and_resolution_noop_witness :
    ((0 : Nat) ∈ (dmUnmount ⟨true, [], true, false, 0, []⟩).aborted
      ∧ (dmUnmount ⟨true, [], true, false, 0, []⟩).mounted = false
      ∧ dmResolveLoad [⟨1, "a.pdf"⟩] (dmUnmount ⟨true, [], true, false, 0, []⟩) 0
          = (dmUnmount ⟨true, [], true, false, 0, []⟩, false))
    ∧ ((0 : Nat) ∈ (cpUnmount ⟨true, [], some 5, true, 0, 1, [], [(0, 5)]⟩).aborted
      ∧ (cpUnmount ⟨true, [], some 5, true, 0, 1, [], [(0, 5)]⟩).mounted = false
      ∧ cpResolve (fun _ => []) (cpUnmount ⟨true, [], some 5, true, 0, 1, [], [(0, 5)]⟩) 0 5
          = (cpUnmount ⟨true, [], some 5, true, 0, 1, [], [(0, 5)]⟩, false)) :=
  unmount_cancels_and_resolution_noop ⟨true, [], true, false, 0, []⟩ 0 [⟨1, "a.pdf"⟩] rfl
    ⟨true, [], some 5, true, 0, 1, [], [(0, 5)]⟩ 0 5 (fun _ => []) rfl

/-- `cpResolve` only touches `messages` and `loadingMessages`. -/
theorem cpResolve_preserves_fields (env : Int → List ChatMsg) (s : CPState)
    (t : Nat) (c : Int) :
    (cpResolve env s t c).1.mounted = s.mounted
    ∧ (cpResolve env s t c).1.pending = s.pending
    ∧ (cpResolve env s t c).1.aborted = s.aborted
    ∧ (cpResolve env s t c).1.curToken = s.curToken
    ∧ (cpResolve env s t c).1.currentConv = s.currentConv := by
  by_cases h1 : (t, c) ∈ s.pending
  · by_cases h2 : t ∈ s.aborted
    · by_cases h3 : s.mounted = true <;>
        simp [cpResolve, h1, h2, h3, cpSetLoadingMessages, cpSetMessages]
    · by_cases h3 : s.mounted = true <;>
        simp [cpResolve, h1, h2, h3, cpSetLoadingMessages, cpSetMessages]
  · simp [cpResolve, h1]

/-- `cpInv` holds initially. -/
theorem cpInv_init : cpInv cpInit := by
  constructor
  · rfl
  · intro t c hmem
    simp [cpInit] at hmem

/-- `cpInv` is preserved by every lifecycle step: a selection aborts the
previous controller before issuing the fresh request, and a resolution
touches neither the token bookkeeping nor the selection. -/
theorem cpInv_step (env : Int → List ChatMsg) (s : CPState) (e : CPEvent)
    (h : cpInv s) : cpInv (cpStep env s e) := by
  obtain ⟨hm, hp⟩ := h
  cases e with
  | select c =>
    refine ⟨hm, ?_⟩
    intro t c' hmem hnab
    simp [cpStep, cpSelect] at hmem hnab ⊢
    rcases hmem with h1 | h1
    · exact ⟨h1.1, h1.2.symm⟩
    · exact absurd (hp t c' h1 hnab.2).1 hnab.1
  | resolve t c =>
    obtain ⟨f1, f2, f3, f4, f5⟩ := cpResolve_preserves_fields env s t c
    refine ⟨?_, ?_⟩
    · simpa [cpStep, f1] using hm
    · intro t' c' hmem hnab
      rw [show cpStep env s (.resolve t c) = (cpResolve env s t c).1 from rfl] at hmem hnab ⊢
      rw [f2] at hmem
      rw [f3] at hnab
      rw [f4, f5]
      exact hp t' c' hmem hnab

/-- `cpInv` holds in every reachable state. -/
theorem cpInv_run (env : Int → List ChatMsg) (es : List CPEvent) (s : CPState)
    (h : cpInv s) : cpInv (cpRun env s es) := by
  induction es generalizing s with
  | nil => exact h
  | cons e es ih =>
    exact ih (cpStep env s e) (cpInv_step env s e h)

/-- The selected conversation after a run is the latest selection of the
event sequence. -/
theorem cpRun_currentConv (env : Int → List ChatMsg) (es : List CPEvent)
    (s : CPState) :
    (cpRun env s es).currentConv = cpLastSelAux es s.currentConv := by
  induction es generalizing s with
  | nil => rfl
  | cons e es ih =>
    cases e with
    | select c =>
      have h1 : cpRun env s (.select c :: es) = cpRun env (cpSelect s c) es := rfl
      rw [h1, ih]
      rfl
    | resolve t c =>
      have h1 : cpRun env s (.resolve t c :: es)
          = cpRun env (cpResolve env s t c).1 es := rfl
      rw [h1, ih]
      have h2 := (cpResolve_preserves_fields env s t c).2.2.2.2
      rw [show cpLastSelAux (CPEvent.resolve t c :: es) s.currentConv
            = cpLastSelAux es s.currentConv from rfl, h2]

/-- **C1 (amended).** In `ChatPage` — whose conversation loads run under
abort tokens — for every sequence of selections and request resolutions in
any order, a resolution step either leaves the message list untouched or
applies exactly the conversation whose id is the latest selected one: a
response belonging to a superseded (aborted) selection is never applied,
even if it arrives after the newer request's response.  (`ChatView`'s
loader has no such protection; see the counterexample.) -/
theorem chatPage_applies_only_latest (env : Int → List ChatMsg)
    (es : List CPEvent) (t : Nat) (c : Int) :
    (cpStep env (cpRun env cpInit es) (.resolve t c)).messages
        = (cpRun env cpInit es).messages
    ∨ ((cpStep env (cpRun env cpInit es) (.resolve t c)).messages = env c
        ∧ (cpRun env cpInit es).currentConv = some c
        ∧ cpLastSelected es = some c) := by
  obtain ⟨hm, hp⟩ := cpInv_run env es cpInit cpInv_init
  by_cases h1 : (t, c) ∈ (cpRun env cpInit es).pending
  · by_cases h2 : t ∈ (cpRun env cpInit es).aborted
    · left
      simp [cpStep, cpResolve, h1, h2, cpSetLoadingMessages, hm]
    · right
      have hc := hp t c h1 h2
      refine ⟨?_, hc.2, ?_⟩
      · simp [cpStep, cpResolve, h1, h2, cpSetLoadingMessages, cpSetMessages, hm]
      · have h3 := cpRun_currentConv env es cpInit
        rw [hc.2] at h3
        exact h3.symm
  · left
    simp [cpStep, cpResolve, h1]

/-- **C1 counterexample.** In `ChatView`, whose `loadConversation` uses a
bare `fetch` with no abort signal and no token comparison, selecting
conversation 1 then conversation 2 and letting the two responses resolve
out of order (2 first, then 1) leaves conversation 1's messages applied to
the message list although the latest selected id is 2: a superseded
response overwrites the newer one, refuting the claim as stated for this
component. -/
theorem chatView_stale_response_overwrites_cex :
    (cvlRun cvlCexEnv cvlInit [.select 1, .select 2, .resolve 2, .resolve 1]).currentConvId
        = some 2
    ∧ (cvlRun cvlCexEnv cvlInit [.select 1, .select 2, .resolve 2, .resolve 1]).messages
        = cvlCexEnv 1
    ∧ (cvlRun cvlCexEnv cvlInit [.select 1, .select 2, .resolve 2, .resolve 1]).messages
        ≠ cvlCexEnv 2 := by decide

end RagApp
